import Mathlib

/-!
Shallow embedding of `ae/core/autogen_wrapper.py` (class `AutogenWrapper`):
role-registry construction (`__initialize_agents`), wrapper creation and
nested-chat registration (`create`), the per-agent termination lambdas, and
the command façade (`process_command`).

Python machine details are modelled explicitly:
* a message dict `x` is `PyMsg` with an optional `content` entry
  (`x.get("content", "")` returns `""` when the key is missing);
* Python truthiness of the `and`-chain in the termination lambdas is
  modelled by `PyVal` and `PyVal.truthy` (a string is truthy iff nonempty);
* Python `list.remove` removes the first occurrence and raises `ValueError`
  when the element is absent; the embedding returns an explicit error;
* exceptions are modelled as the `.error` branch of `Except`.
-/

namespace AgentE

instance exceptDecEq {ε α : Type} [DecidableEq ε] [DecidableEq α] :
    DecidableEq (Except ε α) := fun x y =>
  match x, y with
  | .ok a, .ok b =>
    if h : a = b then .isTrue (by rw [h])
    else .isFalse (by intro hh; injection hh; contradiction)
  | .ok _, .error _ => .isFalse (by intro hh; exact Except.noConfusion hh)
  | .error _, .ok _ => .isFalse (by intro hh; exact Except.noConfusion hh)
  | .error e, .error f =>
    if h : e = f then .isTrue (by rw [h])
    else .isFalse (by intro hh; injection hh; contradiction)

/-- Python ASCII whitespace, as recognised by `str.rstrip()` with no
argument (restricted to the ASCII range, which is all the sentinels use). -/
def pyIsSpace (c : Char) : Bool :=
  c = ' ' || c = '\t' || c = '\n' || c = '\x0d' || c = '\x0b' || c = '\x0c'

/-- Python `s.rstrip()`: drop trailing whitespace characters. -/
def pyRstrip (s : String) : String :=
  ⟨(s.data.reverse.dropWhile pyIsSpace).reverse⟩

/-- Python `s.upper()` (restricted to ASCII, which the sentinels are). -/
def pyUpper (s : String) : String :=
  ⟨s.data.map Char.toUpper⟩

/-- Python `s.endswith(suffix)`. -/
def pyEndsWith (s suffixStr : String) : Bool :=
  suffixStr.data.isSuffixOf s.data

/-- A chat message dict as passed to `is_termination_msg`.  `content = none`
models a dict whose `"content"` key is missing (or maps to `None`, which
behaves identically under `x.get("content", "")` followed by `and`). -/
structure PyMsg where
  content : Option String
  deriving DecidableEq

/-- `x.get("content", "")`. -/
def PyMsg.getContent (x : PyMsg) : String :=
  x.content.getD ""

/-- A Python value as produced by the termination lambdas: `A and B` where
`A` is a string and `B` a bool returns `A` itself when `A` is falsy,
otherwise `B`. -/
inductive PyVal where
  | str (s : String)
  | bool (b : Bool)
  deriving DecidableEq

/-- Python truthiness of the values produced by the termination lambdas. -/
def PyVal.truthy : PyVal → Bool
  | .str s => decide (s ≠ "")
  | .bool b => b

/-- The termination lambda shape shared by `user_proxy` (line 138) and
`browser_nav_executor` (line 156):
`lambda x: x.get("content", "") and x.get("content", "").rstrip().upper().endswith(sentinel)`. -/
def terminationLambda (sentinel : String) (x : PyMsg) : PyVal :=
  if x.getContent = "" then .str x.getContent
  else .bool (pyEndsWith (pyUpper (pyRstrip x.getContent)) sentinel)

/-- The `is_termination_msg` of the `user_proxy` agent (source line 138). -/
def user_proxy_is_termination_msg (x : PyMsg) : PyVal :=
  terminationLambda "##TERMINATE##" x

/-- The `is_termination_msg` of the `browser_nav_executor` agent
(source line 156). -/
def browser_nav_executor_is_termination_msg (x : PyMsg) : PyVal :=
  terminationLambda "##TERMINATE SUBTASK##" x

/-- Modelled from the spec: the role prompts live in `ae/core/prompts.py`,
which is not under `src/`; the spec treats prompt text as opaque
configuration, so each prompt is an opaque distinct string constant. -/
def USER_AGENT_PROMPT : String := "USER_AGENT_PROMPT"

/-- Modelled from the spec: opaque role prompt (see `USER_AGENT_PROMPT`). -/
def BROWSER_NAV_EXECUTOR_PROMPT : String := "BROWSER_NAV_EXECUTOR_PROMPT"

/-- An agent descriptor: the configuration data the wrapper passes when
constructing an agent.  `sentinel` records the sentinel string of the
agent's `is_termination_msg` lambda (evaluated by `terminationLambda`),
`none` when no such lambda is installed; `has_code_execution` records
whether a `code_execution_config` was supplied. -/
structure AgentDesc where
  name : String
  system_message : String
  sentinel : Option String
  max_consecutive_auto_reply : Option Nat
  has_code_execution : Bool
  deriving DecidableEq

/-- `__create_user_proxy_agent` (source lines 127-143). -/
def userProxyDesc (rounds : Nat) : AgentDesc :=
  { name := "user_proxy"
    system_message := USER_AGENT_PROMPT
    sentinel := some "##TERMINATE##"
    max_consecutive_auto_reply := some rounds
    has_code_execution := false }

/-- `__create_browser_nav_executor_agent` (source lines 145-166). -/
def browserNavExecutorDesc (rounds : Nat) : AgentDesc :=
  { name := "browser_nav_executor"
    system_message := BROWSER_NAV_EXECUTOR_PROMPT
    sentinel := some "##TERMINATE SUBTASK##"
    max_consecutive_auto_reply := some rounds
    has_code_execution := true }

/-- Modelled from the spec: `BrowserNavAgent` (`ae/core/agents/browser_nav_agent.py`)
is not under `src/`; the spec describes it as a pure-reasoning assistant
descriptor with an opaque role prompt and no execution capability of its own. -/
def browserNavAgentDesc : AgentDesc :=
  { name := "browser_nav_agent"
    system_message := "BROWSER_AGENT_PROMPT"
    sentinel := none
    max_consecutive_auto_reply := none
    has_code_execution := false }

/-- Modelled from the spec: `PlannerAgent` (`ae/core/agents/high_level_planner_agent.py`)
is not under `src/`; modelled like `browserNavAgentDesc`. -/
def plannerAgentDesc : AgentDesc :=
  { name := "planner_agent"
    system_message := "PLANNER_AGENT_PROMPT"
    sentinel := none
    max_consecutive_auto_reply := none
    has_code_execution := false }

/-- The errors `__initialize_agents` can raise. -/
inductive InitError where
  /-- `ValueError("user_proxy agent is required in the list of needed agents.")`
  (source line 99). -/
  | missingUserProxy
  /-- Python builtin `ValueError: list.remove(x): x not in list`, raised by
  `agents_needed.remove(x)` when `x` is absent (source lines 106 and 111). -/
  | removeNotInList (x : String)
  /-- `ValueError(f"Unknown agent type: {agent_needed}")` (source line 123). -/
  | unknownAgentType (name : String)
  deriving DecidableEq

/-- The agents map: association list keyed by agent name, in Python dict
insertion order. -/
abbrev Registry := List (String × AgentDesc)

/-- Key lookup in the agents map (Python `d[k]`, first match). -/
def mapLookup : Registry → String → Option AgentDesc
  | [], _ => none
  | (k, v) :: rest, key => if k = key then some v else mapLookup rest key

/-- The `for agent_needed in agents_needed:` loop of `__initialize_agents`
(source lines 113-123), accumulating insertions into the agents map and
raising `ValueError` on an unrecognised name. -/
def agentLoop : List String → Registry → Except InitError Registry
  | [], acc => .ok acc
  | a :: rest, acc =>
    if a = "browser_nav_agent" then
      agentLoop rest (acc ++ [("browser_nav_agent", browserNavAgentDesc)])
    else if a = "planner_agent" then
      agentLoop rest (acc ++ [("planner_agent", plannerAgentDesc)])
    else
      .error (.unknownAgentType a)

/-- `__initialize_agents` (source lines 87-124), with the caller's
`agents_needed` list threaded explicitly as state: the Python code mutates
the caller's list via `agents_needed.remove(...)`.  The second component of
the result is the final state of that list (also on the error paths, which
occur after the removals that already happened). -/
def initializeAgentsSt (rounds : Nat) (agents_needed : List String) :
    Except InitError Registry × List String :=
  if "user_proxy" ∉ agents_needed then
    (.error .missingUserProxy, agents_needed)
  else
    -- agents_map["user_proxy"] = ...; agents_needed.remove("user_proxy")
    let l1 := agents_needed.erase "user_proxy"
    -- agents_map["browser_nav_executor"] = ...; agents_needed.remove("browser_nav_executor")
    if "browser_nav_executor" ∉ l1 then
      (.error (.removeNotInList "browser_nav_executor"), l1)
    else
      let l2 := l1.erase "browser_nav_executor"
      let base : Registry :=
        [("user_proxy", userProxyDesc rounds),
         ("browser_nav_executor", browserNavExecutorDesc rounds)]
      (agentLoop l2 base, l2)

/-- The nested-chat registration dict passed to
`register_nested_chats` (source lines 70-82); its `message` entry is the
`nested_chat_message` function below. -/
structure NestedChatReg where
  sender : String
  recipient : String
  max_turns : Nat
  summary_method : String
  deriving DecidableEq

/-- `nested_chat_message` (source lines 61-68): returns
`f"{messages[0]['content']}"`.  `none` models the `IndexError` on an empty
list or the `KeyError` on a missing `content` key. -/
def nested_chat_message (messages : List PyMsg) : Option String :=
  match messages with
  | [] => none
  | m :: _ => m.content

/-- Modelled from the spec: the message the planner "was about to send"
(its draft, the triggering message of the delegation) is the most recent
message of the conversation handed to the nested-chat message callback. -/
def plannerDraftContent (messages : List PyMsg) : Option String :=
  messages.getLast?.bind PyMsg.content

/-- The errors `create` can raise. -/
inductive CreateError where
  /-- an `InitError` propagating out of `__initialize_agents`. -/
  | initErr (e : InitError)
  /-- Python `KeyError` from `self.agents_map[k]` during the nested-chat
  registration (source lines 70-82). -/
  | keyError (k : String)
  deriving DecidableEq

/-- The observable state of an `AutogenWrapper` instance. -/
structure Wrapper where
  number_of_rounds : Nat
  agents_map : Option Registry
  nested_chats : List NestedChatReg
  nested_trigger : Option String
  deriving DecidableEq

/-- `AutogenWrapper.__init__` (source lines 29-32). -/
def Wrapper.init (max_chat_round : Nat) : Wrapper :=
  { number_of_rounds := max_chat_round
    agents_map := none
    nested_chats := []
    nested_trigger := none }

/-- The default `agents_needed` list (source line 48). -/
def defaultAgentsNeeded : List String :=
  ["user_proxy", "browser_nav_executor", "planner_agent", "browser_nav_agent"]

/-- The continuation of `create` after `__initialize_agents` returns
(source lines 59-84): on an exception the wrapper instance still has
`agents_map = None`; on success `agents_map` is assigned, then the
nested-chat registration indexes `agents_map` for `user_proxy`,
`browser_nav_executor`, `browser_nav_agent` and `planner_agent` in Python
evaluation order, raising `KeyError` on a missing key. -/
def createCont (rounds : Nat) (res : Except InitError Registry) :
    Wrapper × Option CreateError :=
  let self := Wrapper.init rounds
  match res with
  | .error e => (self, some (.initErr e))
  | .ok m =>
    let self := { self with agents_map := some m }
    match mapLookup m "user_proxy" with
    | none => (self, some (.keyError "user_proxy"))
    | some _ =>
      match mapLookup m "browser_nav_executor" with
      | none => (self, some (.keyError "browser_nav_executor"))
      | some _ =>
        match mapLookup m "browser_nav_agent" with
        | none => (self, some (.keyError "browser_nav_agent"))
        | some _ =>
          match mapLookup m "planner_agent" with
          | none => (self, some (.keyError "planner_agent"))
          | some _ =>
            ({ self with
                nested_chats :=
                  [{ sender := "browser_nav_executor"
                     recipient := "browser_nav_agent"
                     max_turns := 2
                     summary_method := "last_msg" }]
                nested_trigger := some "planner_agent" }, none)

/-- `AutogenWrapper.create` (source lines 34-84).  Environment loading and
the temp-file round-trip producing `config_list` (lines 51-58) are I/O with
no effect on the agents map and are not modelled.  The result pairs the
wrapper instance reached (even when an exception escapes, to expose its
`agents_map`) with the escaping exception, if any. -/
def create (agents_needed : Option (List String)) (max_chat_round : Nat) :
    Wrapper × Option CreateError :=
  let l := agents_needed.getD defaultAgentsNeeded
  createCont max_chat_round (initializeAgentsSt max_chat_round l).1

/-- Python truthiness of the optional string `current_url` at
`if current_url:` (source line 206): `None` and `""` are falsy. -/
def pyTruthyOptStr (o : Option String) : Bool :=
  decide (o.getD "" ≠ "")

/-- `current_url_prompt_segment` after lines 205-207: `""` initially, then
`f"Current URL: {current_url}"` when `current_url` is truthy. -/
def current_url_prompt_segment (current_url : Option String) : String :=
  if pyTruthyOptStr current_url then "Current URL: " ++ current_url.getD ""
  else ""

/-- Modelled from the spec: `LLM_PROMPTS["COMMAND_EXECUTION_PROMPT"]` lives
in `ae/core/prompts.py`, which is not under `src/`.  The spec describes it
as a template interpolating `command` and the context segment, the segment
being omitted entirely (no placeholder line) when empty; the surrounding
literal text is opaque, so it is modelled by two opaque constants. -/
def commandPromptHead : String := "Execute the following task: "

/-- Modelled from the spec: opaque template text standing between the
`$command` and `$current_url_prompt_segment` placeholders
(see `commandPromptHead`). -/
def commandPromptMid : String := " "

/-- The initial message rendered by `process_command` (source lines
205-209): `Template(...).substitute(command=command,
current_url_prompt_segment=segment)`. -/
def initialMessage (command : String) (current_url : Option String) : String :=
  commandPromptHead ++ command ++ commandPromptMid ++
    current_url_prompt_segment current_url

/-- The backend error taxonomy (spec §7) mapped onto the `openai` exception
classes: `requestRejected` is `openai.BadRequestError`, `timeout` is
`openai.APITimeoutError`, `rateLimited` is `openai.RateLimitError`.  These
are distinct exception classes; none is a subclass of another. -/
inductive BackendError where
  | requestRejected
  | timeout
  | rateLimited
  deriving DecidableEq

/-- The exceptions that can escape `process_command`. -/
inductive PCError where
  /-- a `BackendError` raised by `a_initiate_chat` and not caught. -/
  | backendErr (e : BackendError)
  /-- `ValueError("Agents map is not initialized.")` (source line 214). -/
  | valueError (msg : String)
  deriving DecidableEq

/-- `process_command` (source lines 196-226).  The outcome of the backend
exchange `a_initiate_chat` is a parameter `chatOutcome` (the chat itself is
an external network interaction).  The `try` block raises
`ValueError` when `agents_map` is `None` (uncaught: the sole handler is
`except openai.BadRequestError`, which logs and falls through to a normal
`None` return).  `.error` models an exception escaping `process_command`;
`.ok ()` models a normal return (the function always returns `None`, so a
captured failure yields no error value to the caller). -/
def process_command (w : Wrapper) (command : String)
    (current_url : Option String) (chatOutcome : Except BackendError Unit) :
    Except PCError Unit :=
  let _prompt := initialMessage command current_url
  match w.agents_map with
  | none => .error (.valueError "Agents map is not initialized.")
  | some _ =>
    match chatOutcome with
    | .ok () => .ok ()
    | .error .requestRejected => .ok ()
    | .error e => .error (.backendErr e)

/-- Modelled from the spec: one turn-generation step of the nested exchange
run by the `autogen` library (not part of this repository).  `reply i` is
the content of the `i`-th turn, `stop` the active termination predicate;
turns are produced until `stop` fires on a produced turn or the turn bound
is exhausted, whichever comes first (spec §4.2 `RunNested`). -/
def nestedTranscriptAux (reply : Nat → String) (stop : String → Bool) :
    Nat → Nat → List String
  | 0, _ => []
  | fuel + 1, i =>
    let msg := reply i
    if stop msg then [msg]
    else msg :: nestedTranscriptAux reply stop fuel (i + 1)

/-- Modelled from the spec: the transcript of a nested exchange bounded by
`maxTurns` (see `nestedTranscriptAux`). -/
def nestedTranscript (reply : Nat → String) (stop : String → Bool)
    (maxTurns : Nat) : List String :=
  nestedTranscriptAux reply stop maxTurns 0

/-- Modelled from the spec: running a registered nested chat and reducing
its transcript per `summary_method`; `"last_msg"` keeps exactly the last
message of the exchange (spec §4.2, `summaryPolicy` "last message
verbatim"), any other method would hand back the transcript. -/
def runNested (reg : NestedChatReg) (reply : Nat → String)
    (stop : String → Bool) : List String :=
  let t := nestedTranscript reply stop reg.max_turns
  if reg.summary_method = "last_msg" then t.getLast?.toList else t

/-- The closed set of recognised role names (spec §3; source lines 98-123). -/
def recognizedRoles : List String :=
  ["user_proxy", "browser_nav_executor", "planner_agent", "browser_nav_agent"]

/-! ### Helper lemmas about the `__initialize_agents` loop -/

/-- If the remaining role list holds any name other than
`browser_nav_agent` and `planner_agent`, the loop raises
`ValueError: Unknown agent type` (for some offending name). -/
theorem agentLoop_err (lst : List String) :
    ∀ (acc : Registry) (x : String), x ∈ lst →
      x ≠ "browser_nav_agent" → x ≠ "planner_agent" →
      ∃ r', agentLoop lst acc = .error (.unknownAgentType r') := by
  induction lst with
  | nil =>
    intro acc x hx _ _
    exact absurd hx (List.not_mem_nil x)
  | cons a rest ih =>
    intro acc x hx hbna hpa
    by_cases ha : a = "browser_nav_agent"
    · subst ha
      simp only [agentLoop, if_pos rfl]
      have hxr : x ∈ rest := by
        rcases List.mem_cons.mp hx with h | h
        · exact absurd h hbna
        · exact h
      exact ih _ x hxr hbna hpa
    · by_cases hp : a = "planner_agent"
      · subst hp
        simp only [agentLoop, if_neg ha, if_pos rfl]
        have hxr : x ∈ rest := by
          rcases List.mem_cons.mp hx with h | h
          · exact absurd h hpa
          · exact h
        exact ih _ x hxr hbna hpa
      · exact ⟨a, by simp [agentLoop, ha, hp]⟩

/-- On success the loop appends exactly the requested names to the keys of
the accumulated map. -/
theorem agentLoop_keys (lst : List String) :
    ∀ (acc : Registry) (m : Registry), agentLoop lst acc = .ok m →
      m.map Prod.fst = acc.map Prod.fst ++ lst := by
  induction lst with
  | nil =>
    intro acc m h
    simp only [agentLoop] at h
    cases h
    simp
  | cons a rest ih =>
    intro acc m h
    by_cases ha : a = "browser_nav_agent"
    · subst ha
      simp only [agentLoop, if_pos rfl] at h
      have := ih _ _ h
      simpa [List.append_assoc] using this
    · by_cases hp : a = "planner_agent"
      · subst hp
        simp only [agentLoop, if_neg ha, if_pos rfl] at h
        have := ih _ _ h
        simpa [List.append_assoc] using this
      · simp [agentLoop, ha, hp] at h

/-- On success every name the loop consumed was `browser_nav_agent` or
`planner_agent`. -/
theorem agentLoop_mem (lst : List String) :
    ∀ (acc : Registry) (m : Registry), agentLoop lst acc = .ok m →
      ∀ x ∈ lst, x = "browser_nav_agent" ∨ x = "planner_agent" := by
  induction lst with
  | nil =>
    intro acc m _ x hx
    exact absurd hx (List.not_mem_nil x)
  | cons a rest ih =>
    intro acc m h x hx
    by_cases ha : a = "browser_nav_agent"
    · subst ha
      simp only [agentLoop, if_pos rfl] at h
      rcases List.mem_cons.mp hx with hxa | hxr
      · exact Or.inl hxa
      · exact ih _ _ h x hxr
    · by_cases hp : a = "planner_agent"
      · subst hp
        simp only [agentLoop, if_neg ha, if_pos rfl] at h
        rcases List.mem_cons.mp hx with hxa | hxr
        · exact Or.inr hxa
        · exact ih _ _ h x hxr
      · simp [agentLoop, ha, hp] at h

/-- The nested transcript never exceeds its fuel (turn bound). -/
theorem nestedTranscriptAux_length_le (reply : Nat → String)
    (stop : String → Bool) :
    ∀ (fuel i : Nat), (nestedTranscriptAux reply stop fuel i).length ≤ fuel := by
  intro fuel
  induction fuel with
  | zero => intro i; simp [nestedTranscriptAux]
  | succ n ih =>
    intro i
    simp only [nestedTranscriptAux]
    by_cases h : stop (reply i)
    · simp [h]
    · simp only [h, if_neg]
      simpa using Nat.succ_le_succ (ih (i + 1))

/-! ### Claim theorems -/

/-- C1 (counterexample): a `Timeout` backend failure raised during the
chat is not captured by `process_command` (its only handler is
`except openai.BadRequestError`) and escapes as an exception, on the
wrapper built by `create` with its defaults. -/
theorem claim_C1_counterexample :
    process_command (create none 50).1 "go to example.com" none
        (.error .timeout) = .error (.backendErr .timeout) ∧
    process_command (create none 50).1 "go to example.com" none
        (.error .rateLimited) = .error (.backendErr .rateLimited) := by
  decide

/-- C1 (amended): `process_command` captures only the `RequestRejected`
failure (`openai.BadRequestError`), logging it and returning normally with
no error value; `Timeout` and `RateLimited` backend failures, as well as
the uninitialised-agents-map `ValueError`, escape to the caller. -/
theorem claim_C1_amended :
    ∀ (w : Wrapper) (cmd : String) (cu : Option String) (m : Registry),
      w.agents_map = some m →
      process_command w cmd cu (.ok ()) = .ok () ∧
      process_command w cmd cu (.error .requestRejected) = .ok () ∧
      process_command w cmd cu (.error .timeout) =
        .error (.backendErr .timeout) ∧
      process_command w cmd cu (.error .rateLimited) =
        .error (.backendErr .rateLimited) ∧
      (∀ (w' : Wrapper), w'.agents_map = none →
        ∀ chat, process_command w' cmd cu chat =
          .error (.valueError "Agents map is not initialized.")) := by
  intro w cmd cu m h
  refine ⟨?_, ?_, ?_, ?_, ?_⟩
  · simp [process_command, h]
  · simp [process_command, h]
  · simp [process_command, h]
  · simp [process_command, h]
  · intro w' h' chat
    simp [process_command, h']

/-- C1 (witness for the amended theorem). -/
theorem claim_C1_witness :
    process_command ⟨50, some [], [], none⟩ "go" none
        (.error .requestRejected) = .ok () :=
  (claim_C1_amended ⟨50, some [], [], none⟩ "go" none [] rfl).2.1

/-- C2: for every requested-role list not containing `user_proxy`,
`__initialize_agents` fails with the missing-required-role `ValueError`
and the wrapper built by `create` over that list has no agents map. -/
theorem claim_C2_missing_initiator :
    ∀ (rounds : Nat) (l : List String), "user_proxy" ∉ l →
      (initializeAgentsSt rounds l).1 = .error .missingUserProxy ∧
      (create (some l) rounds).1.agents_map = none := by
  intro rounds l h
  have h1 : (initializeAgentsSt rounds l).1 = .error .missingUserProxy := by
    simp [initializeAgentsSt, h]
  refine ⟨h1, ?_⟩
  simp [create, createCont, h1, Wrapper.init]

/-- C2 (witness). -/
theorem claim_C2_witness :
    (initializeAgentsSt 50 ["planner_agent"]).1 =
        .error .missingUserProxy ∧
    (create (some ["planner_agent"]) 50).1.agents_map = none :=
  claim_C2_missing_initiator 50 ["planner_agent"] (by decide)

/-- C6: the `user_proxy` termination predicate is truthy on a message with
content `s` exactly when `s.rstrip().upper()` ends with `##TERMINATE##`
(so in particular it is case-insensitive in `s` and ignores trailing
whitespace, and an empty content never fires). -/
theorem claim_C6_termination_predicate :
    ∀ s : String,
      (user_proxy_is_termination_msg ⟨some s⟩).truthy =
        pyEndsWith (pyUpper (pyRstrip s)) "##TERMINATE##" := by
  intro s
  by_cases h : s = ""
  · subst h; decide
  · simp [user_proxy_is_termination_msg, terminationLambda, PyMsg.getContent,
      h, PyVal.truthy]

/-- C10: a message whose `content` entry is missing or empty never fires
the termination predicate of `user_proxy` nor that of
`browser_nav_executor` (the lambda's `and`-chain short-circuits on the
falsy empty string). -/
theorem claim_C10_empty_never_terminates :
    ∀ x : PyMsg, x.content = none ∨ x.content = some "" →
      (user_proxy_is_termination_msg x).truthy = false ∧
      (browser_nav_executor_is_termination_msg x).truthy = false := by
  intro x h
  rcases x with ⟨c⟩
  rcases h with h | h <;> simp only at h <;> subst h <;>
    exact ⟨by decide, by decide⟩

/-- C10 (witness). -/
theorem claim_C10_witness :
    (user_proxy_is_termination_msg ⟨none⟩).truthy = false ∧
    (browser_nav_executor_is_termination_msg ⟨none⟩).truthy = false :=
  claim_C10_empty_never_terminates ⟨none⟩ (Or.inl rfl)

/-- C3 (counterexample): the requested list `["user_proxy", "weird"]`
contains a name outside the closed role set, yet construction fails with
the `list.remove` `ValueError` for the absent `browser_nav_executor`
(raised before the unknown-role check is reached), not with the
unknown-role error. -/
theorem claim_C3_counterexample :
    (initializeAgentsSt 50 ["user_proxy", "weird"]).1 =
        .error (.removeNotInList "browser_nav_executor") ∧
    InitError.removeNotInList "browser_nav_executor" ≠
        InitError.unknownAgentType "weird" := by
  decide

/-- C3 (amended): for every requested list that contains `user_proxy` and
`browser_nav_executor` together with some name outside the closed role
set, construction fails with the unknown-agent-type `ValueError` (for the
first offending name encountered) and the wrapper's `agents_map` remains
unset; when `browser_nav_executor` is absent, the failure is the
`list.remove` error instead. -/
theorem claim_C3_amended :
    ∀ (rounds : Nat) (l : List String) (r : String),
      "user_proxy" ∈ l → "browser_nav_executor" ∈ l →
      r ∈ l → r ∉ recognizedRoles →
      (∃ r', (initializeAgentsSt rounds l).1 =
        .error (.unknownAgentType r')) ∧
      (create (some l) rounds).1.agents_map = none := by
  intro rounds l r hu hb hr hnr
  have hrup : r ≠ "user_proxy" := by
    intro he; exact hnr (by rw [he]; decide)
  have hrbe : r ≠ "browser_nav_executor" := by
    intro he; exact hnr (by rw [he]; decide)
  have hrbna : r ≠ "browser_nav_agent" := by
    intro he; exact hnr (by rw [he]; decide)
  have hrpa : r ≠ "planner_agent" := by
    intro he; exact hnr (by rw [he]; decide)
  have hb1 : "browser_nav_executor" ∈ l.erase "user_proxy" :=
    (List.mem_erase_of_ne (by decide)).mpr hb
  have hr2 : r ∈ (l.erase "user_proxy").erase "browser_nav_executor" :=
    (List.mem_erase_of_ne hrbe).mpr ((List.mem_erase_of_ne hrup).mpr hr)
  have step : initializeAgentsSt rounds l =
      (agentLoop ((l.erase "user_proxy").erase "browser_nav_executor")
        [("user_proxy", userProxyDesc rounds),
         ("browser_nav_executor", browserNavExecutorDesc rounds)],
       (l.erase "user_proxy").erase "browser_nav_executor") := by
    simp only [initializeAgentsSt]
    rw [if_neg (by simpa using hu), if_neg (by simpa using hb1)]
  obtain ⟨r', herr⟩ :=
    agentLoop_err ((l.erase "user_proxy").erase "browser_nav_executor")
      [("user_proxy", userProxyDesc rounds),
       ("browser_nav_executor", browserNavExecutorDesc rounds)]
      r hr2 hrbna hrpa
  have h1 : (initializeAgentsSt rounds l).1 =
      .error (.unknownAgentType r') := by
    rw [step]; exact herr
  refine ⟨⟨r', h1⟩, ?_⟩
  simp [create, createCont, h1, Wrapper.init]

/-- C3 (witness for the amended theorem). -/
theorem claim_C3_witness :
    (∃ r', (initializeAgentsSt 50
        ["user_proxy", "browser_nav_executor", "weird"]).1 =
      .error (.unknownAgentType r')) ∧
    (create (some ["user_proxy", "browser_nav_executor", "weird"])
        50).1.agents_map = none :=
  claim_C3_amended 50 ["user_proxy", "browser_nav_executor", "weird"]
    "weird" (by decide) (by decide) (by decide) (by decide)

/-- C4: the sole nested chat `create` registers (on `user_proxy`, for
trigger `planner_agent`) binds the exchange between
`browser_nav_executor` and `browser_nav_agent` with `max_turns = 2` and
`summary_method = "last_msg"`; consequently (with the nested-exchange
execution modelled from the spec) the nested transcript never exceeds 2
turns and what returns to the parent is a single message — the last
message of the exchange — never the raw multi-turn transcript. -/
theorem claim_C4_nested_link :
    (create none 50).1.nested_chats =
      [⟨"browser_nav_executor", "browser_nav_agent", 2, "last_msg"⟩] ∧
    (create none 50).1.nested_trigger = some "planner_agent" ∧
    ∀ (reply : Nat → String) (stop : String → Bool),
      (nestedTranscript reply stop 2).length ≤ 2 ∧
      runNested ⟨"browser_nav_executor", "browser_nav_agent", 2, "last_msg"⟩
          reply stop =
        (nestedTranscript reply stop 2).getLast?.toList ∧
      (runNested ⟨"browser_nav_executor", "browser_nav_agent", 2, "last_msg"⟩
          reply stop).length ≤ 1 := by
  refine ⟨by decide, by decide, ?_⟩
  intro reply stop
  have hrun : runNested
      ⟨"browser_nav_executor", "browser_nav_agent", 2, "last_msg"⟩
      reply stop = (nestedTranscript reply stop 2).getLast?.toList := by
    simp [runNested]
  refine ⟨nestedTranscriptAux_length_le reply stop 2 0, hrun, ?_⟩
  rw [hrun]
  cases (nestedTranscript reply stop 2).getLast? <;> simp

/-- C5 (counterexample): on a two-message triggering conversation the
nested seed is the content of the first message, not the planner's draft
(the most recent message): here the seed is `"A"` while the draft is
`"B"`. -/
theorem claim_C5_counterexample :
    nested_chat_message [⟨some "A"⟩, ⟨some "B"⟩] = some "A" ∧
    plannerDraftContent [⟨some "A"⟩, ⟨some "B"⟩] = some "B" ∧
    nested_chat_message [⟨some "A"⟩, ⟨some "B"⟩] ≠
      plannerDraftContent [⟨some "A"⟩, ⟨some "B"⟩] := by
  decide

/-- C5 (amended): the nested exchange is seeded with the content of the
first message (`messages[0]`) of the triggering conversation; this
coincides with the planner's draft only when that conversation holds
exactly one message. -/
theorem claim_C5_amended :
    ∀ (messages : List PyMsg) (c : String),
      messages.head? = some ⟨some c⟩ →
      nested_chat_message messages = some c ∧
      (messages.length = 1 →
        nested_chat_message messages = plannerDraftContent messages) := by
  intro messages c h
  match messages with
  | [] => simp [List.head?] at h
  | m :: rest =>
    simp only [List.head?, Option.some.injEq] at h
    subst h
    refine ⟨rfl, ?_⟩
    intro hlen
    have hrest : rest = [] := by
      cases rest with
      | nil => rfl
      | cons b bs => simp [List.length] at hlen
    subst hrest
    rfl

/-- C5 (witness for the amended theorem). -/
theorem claim_C5_witness :
    nested_chat_message [⟨some "A"⟩] = some "A" ∧
    ((([⟨some "A"⟩] : List PyMsg)).length = 1 →
      nested_chat_message [⟨some "A"⟩] =
        plannerDraftContent [⟨some "A"⟩]) :=
  claim_C5_amended [⟨some "A"⟩] "A" rfl

/-- C7 (counterexample): requesting `["user_proxy", "browser_nav_executor"]`
succeeds and produces a map containing `browser_nav_executor` but not
`browser_nav_agent`, so the two are not constructed together. -/
theorem claim_C7_counterexample :
    (initializeAgentsSt 50 ["user_proxy", "browser_nav_executor"]).1 =
      .ok [("user_proxy", userProxyDesc 50),
           ("browser_nav_executor", browserNavExecutorDesc 50)] ∧
    "browser_nav_executor" ∈
      ([("user_proxy", userProxyDesc 50),
        ("browser_nav_executor", browserNavExecutorDesc 50)] :
          Registry).map Prod.fst ∧
    "browser_nav_agent" ∉
      ([("user_proxy", userProxyDesc 50),
        ("browser_nav_executor", browserNavExecutorDesc 50)] :
          Registry).map Prod.fst := by
  decide

/-- C7 (amended): every successfully constructed agents map contains
`browser_nav_executor` unconditionally (and success requires that it was
requested), while it contains `browser_nav_agent` exactly when that role
was requested; so an executor-only registry is possible. -/
theorem claim_C7_amended :
    ∀ (rounds : Nat) (l : List String) (m : Registry),
      (initializeAgentsSt rounds l).1 = .ok m →
      "browser_nav_executor" ∈ m.map Prod.fst ∧
      "browser_nav_executor" ∈ l ∧
      ("browser_nav_agent" ∈ m.map Prod.fst ↔ "browser_nav_agent" ∈ l) := by
  intro rounds l m hm
  by_cases h1 : "user_proxy" ∈ l
  swap
  · simp [initializeAgentsSt, h1] at hm
  by_cases h2 : "browser_nav_executor" ∈ l.erase "user_proxy"
  swap
  · simp only [initializeAgentsSt] at hm
    rw [if_neg (not_not_intro h1)] at hm
    rw [if_pos h2] at hm
    cases hm
  have hbl : "browser_nav_executor" ∈ l := List.mem_of_mem_erase h2
  have step : (initializeAgentsSt rounds l).1 =
      agentLoop ((l.erase "user_proxy").erase "browser_nav_executor")
        [("user_proxy", userProxyDesc rounds),
         ("browser_nav_executor", browserNavExecutorDesc rounds)] := by
    simp only [initializeAgentsSt]
    rw [if_neg (by simpa using h1), if_neg (by simpa using h2)]
  rw [step] at hm
  have hkeys := agentLoop_keys _ _ _ hm
  have hkeys' : m.map Prod.fst =
      "user_proxy" :: "browser_nav_executor" ::
        (l.erase "user_proxy").erase "browser_nav_executor" := by
    simpa using hkeys
  refine ⟨?_, hbl, ?_⟩
  · rw [hkeys']
    exact List.mem_cons_of_mem _ (List.mem_cons_self _ _)
  · rw [hkeys']
    constructor
    · intro hx
      rcases List.mem_cons.mp hx with hx | hx
      · exact absurd hx (by decide)
      rcases List.mem_cons.mp hx with hx | hx
      · exact absurd hx (by decide)
      · exact List.mem_of_mem_erase (List.mem_of_mem_erase hx)
    · intro hx
      refine List.mem_cons_of_mem _ (List.mem_cons_of_mem _ ?_)
      exact (List.mem_erase_of_ne (by decide)).mpr
        ((List.mem_erase_of_ne (by decide)).mpr hx)

/-- C7 (witness for the amended theorem). -/
theorem claim_C7_witness :
    "browser_nav_executor" ∈
      ([("user_proxy", userProxyDesc 50),
        ("browser_nav_executor", browserNavExecutorDesc 50),
        ("planner_agent", plannerAgentDesc),
        ("browser_nav_agent", browserNavAgentDesc)] :
          Registry).map Prod.fst ∧
    "browser_nav_executor" ∈ defaultAgentsNeeded ∧
    ("browser_nav_agent" ∈
      ([("user_proxy", userProxyDesc 50),
        ("browser_nav_executor", browserNavExecutorDesc 50),
        ("planner_agent", plannerAgentDesc),
        ("browser_nav_agent", browserNavAgentDesc)] :
          Registry).map Prod.fst ↔
      "browser_nav_agent" ∈ defaultAgentsNeeded) :=
  claim_C7_amended 50 defaultAgentsNeeded
    [("user_proxy", userProxyDesc 50),
     ("browser_nav_executor", browserNavExecutorDesc 50),
     ("planner_agent", plannerAgentDesc),
     ("browser_nav_agent", browserNavAgentDesc)] (by decide)

/-- C8 (counterexample): with `currentUrl` supplied as the (falsy) empty
string, the rendered message carries no `Current URL` segment at all, so
"segment present exactly when the argument is supplied" fails. -/
theorem claim_C8_counterexample :
    current_url_prompt_segment (some "") = "" ∧
    ¬ ("Current URL:".data <:+:
        (initialMessage "click login" (some "")).data) := by
  decide

/-- C8 (amended): the initial message carries a
`Current URL: <currentUrl>` segment exactly when `currentUrl` is supplied
and nonempty (Python truthiness); when it is `None` or empty the segment
is the empty string interpolated in place, leaving no placeholder. -/
theorem claim_C8_amended :
    ∀ (command u : String),
      (u ≠ "" → initialMessage command (some u) =
        commandPromptHead ++ command ++ commandPromptMid ++
          ("Current URL: " ++ u)) ∧
      initialMessage command none =
        commandPromptHead ++ command ++ commandPromptMid ∧
      initialMessage command (some "") =
        commandPromptHead ++ command ++ commandPromptMid := by
  intro command u
  refine ⟨?_, ?_, ?_⟩
  · intro hu
    simp [initialMessage, current_url_prompt_segment, pyTruthyOptStr, hu]
  · simp [initialMessage, current_url_prompt_segment, pyTruthyOptStr]
  · simp [initialMessage, current_url_prompt_segment, pyTruthyOptStr]

/-- C8 (witness for the amended theorem). -/
theorem claim_C8_witness :
    initialMessage "click login" (some "https://example.com") =
      commandPromptHead ++ "click login" ++ commandPromptMid ++
        ("Current URL: " ++ "https://example.com") :=
  (claim_C8_amended "click login" "https://example.com").1 (by decide)

/-- C9 (counterexample): construction is not free of side effects beyond
the returned registry: a successful build over
`["user_proxy", "browser_nav_executor"]` leaves the caller's role list
mutated to `[]`, and a second build from that same (mutated) list fails
with the missing-required-role error instead of succeeding. -/
theorem claim_C9_counterexample :
    (initializeAgentsSt 50 ["user_proxy", "browser_nav_executor"]).1 =
      .ok [("user_proxy", userProxyDesc 50),
           ("browser_nav_executor", browserNavExecutorDesc 50)] ∧
    (initializeAgentsSt 50 ["user_proxy", "browser_nav_executor"]).2 = [] ∧
    (initializeAgentsSt 50
      (initializeAgentsSt 50 ["user_proxy", "browser_nav_executor"]).2).1 =
        .error .missingUserProxy := by
  decide

/-- C9 (amended): construction is deterministic — two builds from equal,
separately supplied role lists yield identical results — but it mutates
the caller's role list: after any successful build, re-building from the
caller's now-mutated list always fails with the missing-required-role
error. -/
theorem claim_C9_amended :
    ∀ (rounds : Nat) (l l' : List String) (m : Registry),
      (l = l' → initializeAgentsSt rounds l = initializeAgentsSt rounds l') ∧
      ((initializeAgentsSt rounds l).1 = .ok m →
        (initializeAgentsSt rounds (initializeAgentsSt rounds l).2).1 =
          .error .missingUserProxy) := by
  intro rounds l l' m
  refine ⟨fun h => by rw [h], ?_⟩
  intro hm
  by_cases h1 : "user_proxy" ∈ l
  swap
  · simp [initializeAgentsSt, h1] at hm
  by_cases h2 : "browser_nav_executor" ∈ l.erase "user_proxy"
  swap
  · simp only [initializeAgentsSt] at hm
    rw [if_neg (not_not_intro h1)] at hm
    rw [if_pos h2] at hm
    cases hm
  have step : initializeAgentsSt rounds l =
      (agentLoop ((l.erase "user_proxy").erase "browser_nav_executor")
        [("user_proxy", userProxyDesc rounds),
         ("browser_nav_executor", browserNavExecutorDesc rounds)],
       (l.erase "user_proxy").erase "browser_nav_executor") := by
    simp only [initializeAgentsSt]
    rw [if_neg (by simpa using h1), if_neg (by simpa using h2)]
  rw [step] at hm ⊢
  have hall := agentLoop_mem _ _ _ hm
  have hup : "user_proxy" ∉
      (l.erase "user_proxy").erase "browser_nav_executor" := by
    intro hin
    rcases hall _ hin with he | he <;> exact absurd he (by decide)
  simp [initializeAgentsSt, hup]

/-- C9 (witness for the amended theorem). -/
theorem claim_C9_witness :
    initializeAgentsSt 50 ["user_proxy", "browser_nav_executor"] =
      initializeAgentsSt 50 ["user_proxy", "browser_nav_executor"] ∧
    (initializeAgentsSt 50
      (initializeAgentsSt 50 ["user_proxy", "browser_nav_executor"]).2).1 =
        .error .missingUserProxy :=
  ⟨(claim_C9_amended 50 ["user_proxy", "browser_nav_executor"]
      ["user_proxy", "browser_nav_executor"]
      [("user_proxy", userProxyDesc 50),
       ("browser_nav_executor", browserNavExecutorDesc 50)]).1 rfl,
   (claim_C9_amended 50 ["user_proxy", "browser_nav_executor"]
      ["user_proxy", "browser_nav_executor"]
      [("user_proxy", userProxyDesc 50),
       ("browser_nav_executor", browserNavExecutorDesc 50)]).2 (by decide)⟩

end AgentE
